import Mathlib

/-!
Verification development for the Keke web client.

The definitions below are a shallow embedding of the JavaScript sources:
- `static/js/game-visualization.js` (sprite cache, ASCII map decoder,
  canvas renderer, playback controller);
- `script.js` (server-sent-events progress stream handlers).

JavaScript specifics are modelled as follows: the module-level mutable
variables become an explicit state record threaded through the
operations; `async` functions that suspend at an `await` are split at
the suspension point into a start phase and a resume phase so that
interleavings of concurrent calls can be expressed; an `Image` resource
is identified by its `src` URL; a thrown `TypeError` is an
`Except.error`; DOM / canvas side effects are recorded as values in an
emitted command or event list.
-/

namespace Keke

/-! ## AssetCache: `loadSprite` (game-visualization.js, lines 62-82)

`SPRITE_IMAGES` is a plain object used as a dictionary keyed by the
string passed to `loadSprite`; it is modelled as an association list
from key to the `src` of the cached image.  A JavaScript property
access with an `undefined` key reads property `"undefined"`. -/

def SPRITE_BASE_PATH : String := "/static/img/"

/-- The `MAP_SPRITES` table (lines 20-59): map characters to sprite file
names, as an association list keyed by the one-character string. -/
def MAP_SPRITES : List (String × String) :=
  [("_", "border.png"), (" ", "empty.png"), (".", "floor_obj.png"),
   ("b", "baba_obj.png"), ("B", "baba_word.png"),
   ("s", "skull_obj.png"), ("S", "skull_word.png"),
   ("f", "flag_obj.png"), ("F", "flag_word.png"),
   ("o", "floor_obj.png"), ("O", "floor_word.png"),
   ("a", "grass_obj.png"), ("A", "grass_word.png"),
   ("l", "lava_obj.png"), ("L", "lava_word.png"),
   ("r", "rock_obj.png"), ("R", "rock_word.png"),
   ("w", "wall_obj.png"), ("W", "wall_word.png"),
   ("k", "keke_obj.png"), ("K", "keke_word.png"),
   ("g", "goop_obj.png"), ("G", "goop_word.png"),
   ("v", "love_obj.png"), ("V", "love_word.png"),
   ("1", "is_word.png"), ("2", "you_word.png"), ("3", "win_word.png"),
   ("4", "kill_word.png"), ("5", "push_word.png"), ("6", "stop_word.png"),
   ("7", "move_word.png"), ("8", "hot_word.png"), ("9", "melt_word.png"),
   ("0", "sink_word.png")]

/-- The `SPRITE_IMAGES` cache: key of `loadSprite` mapped to the `src`
of the decoded image stored there. -/
abbrev SpriteCache := List (String × String)

/-- Outcome of the synchronous head of `loadSprite`, i.e. everything
executed before the `await img.decode()` suspension point. -/
inductive LoadStart where
  /-- `SPRITE_IMAGES[spriteName]` was set: return it, no load started. -/
  | cachedHit (img : String)
  /-- Unmapped symbol that is not a `.png` file name: warn and return
  null without loading. -/
  | unmapped
  /-- A fresh `Image` is created with the given `src`: an underlying
  asynchronous load is started. -/
  | startLoad (src : String)
  /-- `spriteName` was `undefined`: `spriteName.endsWith` throws. -/
  | typeError
  deriving DecidableEq

/-- `loadSprite` up to its suspension point.  `spriteName?` is `none`
when the caller passed `undefined` (property access then uses the key
`"undefined"`, and `spriteName.endsWith('.png')` throws a
`TypeError`). -/
def loadSpriteStart (cache : SpriteCache) (spriteName? : Option String) :
    LoadStart :=
  let key := match spriteName? with
    | some n => n
    | none => "undefined"
  match cache.lookup key with
  | some img => .cachedHit img
  | none =>
    match spriteName? with
    | none => .typeError
    | some name =>
      if (MAP_SPRITES.lookup name).isNone ∧ ¬ name.endsWith ".png" then
        .unmapped
      else
        .startLoad (if name.endsWith ".png" then SPRITE_BASE_PATH ++ name
                    else SPRITE_BASE_PATH ++ ((MAP_SPRITES.lookup name).getD ""))

/-- `loadSprite` after `await img.decode()` resolves (`decodeOk = true`)
or rejects (`decodeOk = false`): on success the image is stored in
`SPRITE_IMAGES[spriteName]` and returned, on failure the `catch` block
returns null and the cache is left untouched. -/
def loadSpriteResume (cache : SpriteCache) (spriteName src : String)
    (decodeOk : Bool) : SpriteCache × Option String :=
  if decodeOk then ((spriteName, src) :: cache, some src) else (cache, none)

/-- One complete, uninterleaved run of `loadSprite`.  `decodeOk` is the
environment oracle saying whether decoding the image at a given `src`
succeeds.  The `Except` layer carries the `TypeError` thrown on an
`undefined` argument. -/
def loadSpriteRun (cache : SpriteCache) (decodeOk : String → Bool)
    (spriteName? : Option String) : Except Unit (SpriteCache × Option String) :=
  match loadSpriteStart cache spriteName? with
  | .cachedHit img => .ok (cache, some img)
  | .unmapped => .ok (cache, none)
  | .typeError => .error ()
  | .startLoad src =>
      .ok (loadSpriteResume cache (spriteName?.getD "undefined") src
        (decodeOk src))

/-- Number of underlying loads begun by one synchronous head. -/
def startsLoad : LoadStart → Nat
  | .startLoad _ => 1
  | _ => 0

/-- Two `loadSprite` calls for the same symbol, both issued before the
first load resolves: in the single-threaded event-loop model both
synchronous heads run to their suspension point before either resume
runs, so both observe the same cache.  Returns how many underlying
loads are started in total. -/
def concurrentLoadStarts (cache : SpriteCache) (name : String) : Nat :=
  startsLoad (loadSpriteStart cache (some name)) +
    startsLoad (loadSpriteStart cache (some name))

/-! ## MapDecoder: `parseAsciiMap` (game-visualization.js, lines 84-87) -/

/-- Whitespace trimmed by JavaScript `String.prototype.trim`, restricted
to the ASCII whitespace characters that occur in level text. -/
def jsWhitespace (c : Char) : Bool :=
  c = ' ' ∨ c = '\t' ∨ c = '\n' ∨ c = '\r'

/-- JavaScript `text.trim()`: drop leading and trailing whitespace. -/
def jsTrim (s : List Char) : List Char :=
  ((s.dropWhile jsWhitespace).reverse.dropWhile jsWhitespace).reverse

/-- JavaScript `text.split('\n')`: every maximal `'\n'`-free run, with
an empty segment between adjacent separators and at either end. -/
def splitOnNewline : List Char → List (List Char)
  | [] => [[]]
  | c :: cs =>
    if c = '\n' then [] :: splitOnNewline cs
    else
      match splitOnNewline cs with
      | [] => [[c]]
      | r :: rs => (c :: r) :: rs

/-- Joins rows back with `'\n'`: the left inverse of `splitOnNewline`,
used to state that decoding keeps every row at its literal content. -/
def joinLines : List (List Char) → List Char
  | [] => []
  | [row] => row
  | row :: rest => row ++ '\n' :: joinLines rest

/-- `parseAsciiMap`: the guard `if (!asciiMap) return []` catches the
empty string; otherwise trim, split on newlines, and split each row
into one character per cell (`row.split('')` — a row of `splitOnNewline`
is already the list of its characters). -/
def parseAsciiMap (asciiMap : String) : List (List Char) :=
  if asciiMap = "" then []
  else splitOnNewline (jsTrim asciiMap.toList)

/-! ## Renderer: `drawMap` (game-visualization.js, lines 89-122)

Canvas operations are recorded as a list of drawing commands.  The
`for` loops run `r` over `0..numRows-1` and `c` over `0..numCols-1`
where `numCols = mapArray[0].length`; the cell access `mapArray[r][c]`
yields `undefined` (modelled `none`) when row `r` is shorter than the
first row.  Each cell awaits `loadSprite(char)` sequentially, so the
sprite cache is threaded left-to-right, top-to-bottom. -/

inductive DrawCmd where
  /-- `fillText("Mappa non disponibile o vuota.", ...)` for an empty or
  absent grid. -/
  | noData
  /-- `ctx.drawImage(spriteImg, c*TILE_SIZE, r*TILE_SIZE, ...)`. -/
  | drawImage (r c : Nat) (src : String)
  /-- Fallback `ctx.fillRect(c*TILE_SIZE, r*TILE_SIZE, ...)` when
  `loadSprite` returned null. -/
  | fillRect (r c : Nat)
  deriving DecidableEq

/-- One iteration of the inner loop body: resolve the cell's character
through `loadSprite` and draw the image, or the fallback rectangle when
resolution yields null. -/
def drawCell (cache : SpriteCache) (decodeOk : String → Bool)
    (cell? : Option Char) (r c : Nat) : Except Unit (SpriteCache × DrawCmd) :=
  match loadSpriteRun cache decodeOk (cell?.map fun ch => String.singleton ch) with
  | .error e => .error e
  | .ok (cache', some src) => .ok (cache', .drawImage r c src)
  | .ok (cache', none) => .ok (cache', .fillRect r c)

/-- The inner `for (let c = 0; c < numCols; c++)` loop over the column
indices `cols`, reading cells from `row`. -/
def drawRowCells (cache : SpriteCache) (decodeOk : String → Bool)
    (row : List Char) (r : Nat) :
    List Nat → Except Unit (SpriteCache × List DrawCmd)
  | [] => .ok (cache, [])
  | c :: cs => do
      let (cache₁, cmd) ← drawCell cache decodeOk (row.get? c) r c
      let (cache₂, cmds) ← drawRowCells cache₁ decodeOk row r cs
      .ok (cache₂, cmd :: cmds)

/-- The outer `for (let r = 0; r < numRows; r++)` loop, one element of
`rows` per iteration. -/
def drawRows (cache : SpriteCache) (decodeOk : String → Bool)
    (numCols r : Nat) :
    List (List Char) → Except Unit (SpriteCache × List DrawCmd)
  | [] => .ok (cache, [])
  | row :: rest => do
      let (cache₁, cmds₁) ← drawRowCells cache decodeOk row r (List.range numCols)
      let (cache₂, cmds₂) ← drawRows cache₁ decodeOk numCols (r + 1) rest
      .ok (cache₂, cmds₁ ++ cmds₂)

/-- `drawMap`: an empty or absent grid draws the "no data" message;
otherwise every cell in the `numRows × numCols` rectangle is processed,
with `numCols` taken from the first row. -/
def drawMap (cache : SpriteCache) (decodeOk : String → Bool)
    (mapArray : List (List Char)) : Except Unit (SpriteCache × List DrawCmd) :=
  if mapArray.length = 0 then .ok (cache, [.noData])
  else drawRows cache decodeOk (mapArray.headD []).length 0 mapArray

/-! ## PlaybackController (game-visualization.js, lines 13-17, 216-253,
297-398, 406-457)

The module-level mutable variables `currentSolution`, `currentStepIndex`,
`solutionPlayerInterval` and `precomputedStates` become fields of
`GVState`.  To express timer hygiene, the browser's interval timers are
modelled by integer handles: `setInterval` allocates `nextTimerId` and
adds it to `activeTimers`; `clearInterval h` removes `h`.  Canvas
renders and callback invocations are recorded as `Event`s, in program
order. -/

/-- One element of `data.states` from `/generate_game_states`. -/
structure GameSnap where
  move : Option String
  ascii_map : String
  deriving DecidableEq

/-- The module-level state of `GameVisualization`. -/
structure GVState where
  currentSolution : List Char
  currentStepIndex : Int
  solutionPlayerInterval : Option Nat
  activeTimers : List Nat
  nextTimerId : Nat
  precomputedStates : List GameSnap
  deriving DecidableEq

/-- Observable effects of the controller: canvas renders and callback
invocations. -/
inductive Event where
  | render (grid : List (List Char))
  | onStepUpdate (i n : Int)
  | onSolutionReady (n : Int)
  | onNoSolution
  | onPlaybackEnd
  deriving DecidableEq

/-- `displayPrecomputedStep` (lines 222-253): rejects a missing session
or an out-of-range index as a logged no-op; otherwise sets
`currentStepIndex`, draws the decoded snapshot and invokes
`onStepUpdate(stepIndex, precomputedStates.length - 1)`. -/
def displayPrecomputedStep (s : GVState) (stepIndex : Int) :
    GVState × List Event :=
  if s.precomputedStates.length = 0 then (s, [])
  else if stepIndex < 0 ∨ (s.precomputedStates.length : Int) ≤ stepIndex then
    (s, [])
  else
    match s.precomputedStates.get? stepIndex.toNat with
    | none => (s, [])
    | some st =>
      ({ s with currentStepIndex := stepIndex },
       [.render (parseAsciiMap st.ascii_map),
        .onStepUpdate stepIndex ((s.precomputedStates.length : Int) - 1)])

/-- The `clearInterval(solutionPlayerInterval); solutionPlayerInterval =
null` pattern (lines 268-271, 301-304, 447-448, 463-466): cancel the
running interval timer, if any. -/
def cancelTimer (s : GVState) : GVState :=
  match s.solutionPlayerInterval with
  | some h => { s with activeTimers := s.activeTimers.erase h,
                       solutionPlayerInterval := none }
  | none => s

/-- The `maxStepIndex` computation inside `toggleSolutionPlayback`
(lines 425-427). -/
def maxStep (s : GVState) : Int :=
  if 0 < s.precomputedStates.length then (s.precomputedStates.length : Int) - 1
  else (s.currentSolution.length : Int) - 1

/-- `toggleSolutionPlayback` (lines 418-457) up to the point where the
interval is installed; the periodic callback itself is `playbackTick`.
Returns `true` when the animation was started, `false` when it was
paused or there is nothing to play. -/
def toggleSolutionPlayback (s : GVState) : GVState × Bool :=
  match s.solutionPlayerInterval with
  | some h =>
    ({ s with activeTimers := s.activeTimers.erase h,
              solutionPlayerInterval := none }, false)
  | none =>
    if maxStep s < 0 then (s, false)
    else
      let s₁ := if maxStep s ≤ s.currentStepIndex
        then { s with currentStepIndex := -1 } else s
      let h := s₁.nextTimerId
      ({ s₁ with activeTimers := h :: s₁.activeTimers,
                 solutionPlayerInterval := some h,
                 nextTimerId := h + 1 }, true)

/-- One firing of the interval callback installed by
`toggleSolutionPlayback` (lines 439-453); `maxStepIndex` is the value
captured by the closure. -/
def playbackTick (s : GVState) (maxStepIndex : Int) : GVState × List Event :=
  if s.currentStepIndex < maxStepIndex then
    displayPrecomputedStep s (s.currentStepIndex + 1)
  else
    let s₁ := match s.solutionPlayerInterval with
      | some h => { s with activeTimers := s.activeTimers.erase h,
                           solutionPlayerInterval := none }
      | none => s
    (s₁, [.onPlaybackEnd])

/-- `showGameView` (lines 297-398) on the success path: the
`/generate_game_states` request succeeded with `data.states = states`
and `solutionArray` is the already-normalized solution (lines 311-326).
Models lines 300-384: stop any running animation, reset the state,
store the response, display index 0 and fire the notifications, or fall
back to rendering `asciiMap` when no states were returned.
`saveStepByStepSolution` has no effect on the modelled state. -/
def showGameViewSuccess (s : GVState) (solutionArray : List Char)
    (asciiMap : String) (states : List GameSnap) : GVState × List Event :=
  let s₁ := cancelTimer s
  let s₂ := { s₁ with currentStepIndex := -1, precomputedStates := [],
                      currentSolution := solutionArray }
  let s₃ := { s₂ with precomputedStates := states }
  if 0 < states.length then
    let s₄ := { s₃ with currentStepIndex := 0 }
    let (s₅, evs) := displayPrecomputedStep s₄ 0
    if 1 < states.length then
      (s₅, evs ++ [.onSolutionReady ((states.length : Int) - 1)])
    else (s₅, evs)
  else
    (s₃, [.render (parseAsciiMap asciiMap), .onNoSolution])

/-! ## SessionProgressStream (script.js in `src/unnamed/part_000`,
lines 67-99 and 259-387)

The `EventSource` handlers `progressEventSource.onmessage` (lines
316-370) and `progressEventSource.onerror` (lines 373-380) mutate the
page: status line, loading indicator, progress bar, results table and
metrics panel.  The table and the metrics are modelled by the data they
were last computed from (`displayLevels(report.levels)` stores the level
rows, `updateMetrics(report)` stores the report), which is exactly what
the frame conditions below are about.  Stream lifecycle operations are
emitted as `StreamAction`s; `openStream` is what the solve-button flow
(line 313) does and what a retry would have to do. -/

/-- One level row of the results table; its fields are opaque here. -/
structure LevelRow where
  id : String
  deriving DecidableEq

/-- The `report` payload of a progress event. -/
structure Report where
  levels : Option (List LevelRow)
  from_cache : Bool
  deriving DecidableEq

/-- A parsed progress event (`JSON.parse(event.data)`). -/
structure ProgressData where
  status : String
  error : String
  current : Nat
  total : Nat
  report : Option Report
  deriving DecidableEq

/-- Progress bar colors. -/
inductive BarColor where
  | orange
  | blue
  | green
  deriving DecidableEq

/-- UI-facing state touched by the progress handlers. -/
structure UIState where
  statusMessage : String
  loadingVisible : Bool
  progressVisible : Bool
  progressCurrent : Nat
  progressTotal : Nat
  barColor : BarColor
  levelsTable : List LevelRow
  metricsSource : Option Report
  alerts : List String
  streamOpen : Bool
  deriving DecidableEq

/-- Stream lifecycle operations performed by the handlers. -/
inductive StreamAction where
  | closeStream
  | openStream (sessionId : String)
  deriving DecidableEq

/-- `setStatus` (lines 67-76): sets the status text and the loading
indicator, and hides the progress container whenever loading ends. -/
def setStatus (ui : UIState) (message : String) (isLoading : Bool) : UIState :=
  let ui₁ := { ui with statusMessage := message, loadingVisible := isLoading }
  if isLoading then ui₁ else { ui₁ with progressVisible := false }

/-- `updateProgressBar` (lines 78-99): shows the bar, stores
`current/total`, and picks the color band from
`percentage = current / total * 100`.  The float comparisons
`percentage < 30` and `percentage < 70` are expressed exactly over the
rationals as `100 * current < 30 * total` and `100 * current <
70 * total`; when `total = 0` the percentage is `Infinity` or `NaN` and
both comparisons are false, which the integer form reproduces. -/
def updateProgressBar (ui : UIState) (current total : Nat) : UIState :=
  let ui₁ := { ui with progressVisible := true,
                       progressCurrent := current, progressTotal := total }
  if 100 * current < 30 * total then { ui₁ with barColor := .orange }
  else if 100 * current < 70 * total then { ui₁ with barColor := .blue }
  else { ui₁ with barColor := .green }

/-- `progressEventSource.onmessage` (lines 316-370). -/
def onProgressMessage (ui : UIState) (d : ProgressData) :
    UIState × List StreamAction :=
  if d.status = "completed" then
    (setStatus { ui with streamOpen := false } "Risoluzione completata." false,
     [.closeStream])
  else if d.status = "error" then
    let ui₁ := setStatus { ui with streamOpen := false }
      ("Errore: " ++ d.error) false
    ({ ui₁ with
        alerts := ui₁.alerts ++ ["Si è verificato un errore: " ++ d.error] },
     [.closeStream])
  else
    let fromCache := match d.report with
      | some rep => rep.from_cache
      | none => false
    let ui₁ := updateProgressBar ui d.current d.total
    let ui₂ := setStatus ui₁
      (if fromCache then
        "Caricamento risultato dalla cache: " ++ toString d.current ++ "/" ++
          toString d.total ++ "..."
       else
        "Elaborazione livello " ++ toString d.current ++ "/" ++
          toString d.total ++ "...") true
    match d.report with
    | some rep =>
      match rep.levels with
      | some lvls =>
        let ui₃ := { ui₂ with levelsTable := lvls, metricsSource := some rep }
        if fromCache then
          ({ ui₃ with statusMessage :=
              "Risultati caricati dalla cache: " ++ toString d.current ++ "/" ++
                toString d.total ++ " (dalla cache)" }, [])
        else (ui₃, [])
      | none => (ui₂, [])
    | none => (ui₂, [])

/-- `progressEventSource.onerror` (lines 373-380): a transport-level
stream failure. -/
def onProgressError (ui : UIState) : UIState × List StreamAction :=
  (setStatus { ui with streamOpen := false }
    "Errore nella connessione col server. Riprova." false,
   [.closeStream])

/-- A small concrete controller state: one loaded session with one move
(two snapshots), currently at step 0, paused, no timers. -/
def sampleSession : GVState :=
  ⟨['r'], 0, none, [], 0, [⟨none, "_b"⟩, ⟨some "r", "b_"⟩]⟩

/-- A small concrete UI state for the progress handlers. -/
def sampleUI : UIState :=
  ⟨"Pronto.", false, false, 0, 0, .green, [⟨"lvl1"⟩], none, [], true⟩

/-! ## Helper lemmas -/

/-- A `loadSprite` call with a defined (string) argument never throws:
only the `undefined` cell of a ragged grid reaches the throwing path. -/
lemma loadSpriteStart_some_ne_typeError (cache : SpriteCache) (name : String) :
    loadSpriteStart cache (some name) ≠ .typeError := by
  unfold loadSpriteStart
  cases h : cache.lookup name <;> simp [h]
  split <;> simp

/-- A full `loadSprite` run on a defined argument returns normally. -/
lemma loadSpriteRun_some_ok (cache : SpriteCache) (decodeOk : String → Bool)
    (name : String) :
    ∃ cache' res, loadSpriteRun cache decodeOk (some name) = .ok (cache', res) := by
  unfold loadSpriteRun
  cases hs : loadSpriteStart cache (some name) with
  | cachedHit img => exact ⟨cache, some img, rfl⟩
  | unmapped => exact ⟨cache, none, rfl⟩
  | typeError => exact absurd hs (loadSpriteStart_some_ne_typeError cache name)
  | startLoad src =>
      exact ⟨_, _, rfl⟩

/-- `splitOnNewline` always yields at least one segment. -/
lemma splitOnNewline_ne_nil : ∀ s : List Char, splitOnNewline s ≠ [] := by
  intro s
  cases s with
  | nil => simp [splitOnNewline]
  | cons c cs =>
    unfold splitOnNewline
    split
    · simp
    · split <;> simp

/-- Rejoining the segments of `splitOnNewline` with `'\n'` restores the
input. -/
lemma joinLines_splitOnNewline : ∀ s : List Char,
    joinLines (splitOnNewline s) = s := by
  intro s
  induction s with
  | nil => rfl
  | cons c cs ih =>
    unfold splitOnNewline
    by_cases h : c = '\n'
    · rw [if_pos h]
      cases hsp : splitOnNewline cs with
      | nil => exact absurd hsp (splitOnNewline_ne_nil cs)
      | cons r rs =>
        rw [hsp] at ih
        subst h
        simp [joinLines, ih]
    · rw [if_neg h]
      cases hsp : splitOnNewline cs with
      | nil => exact absurd hsp (splitOnNewline_ne_nil cs)
      | cons r rs =>
        rw [hsp] at ih
        cases rs with
        | nil => simpa [joinLines] using ih
        | cons r' rs' => simpa [joinLines] using ih

/-- No segment of `splitOnNewline` contains the separator. -/
lemma newline_not_mem_splitOnNewline : ∀ (s : List Char) (row : List Char),
    row ∈ splitOnNewline s → '\n' ∉ row := by
  intro s
  induction s with
  | nil => intro row hr; simp [splitOnNewline] at hr; simp [hr]
  | cons c cs ih =>
    intro row hr
    unfold splitOnNewline at hr
    by_cases h : c = '\n'
    · rw [if_pos h] at hr
      rcases List.mem_cons.mp hr with h1 | h1
      · simp [h1]
      · exact ih row h1
    · rw [if_neg h] at hr
      cases hsp : splitOnNewline cs with
      | nil => exact absurd hsp (splitOnNewline_ne_nil cs)
      | cons r rs =>
        rw [hsp] at hr
        rcases List.mem_cons.mp hr with h1 | h1
        · subst h1
          intro hmem
          rcases List.mem_cons.mp hmem with h2 | h2
          · exact h h2.symm
          · exact ih r (by simp [hsp]) h2
        · exact ih row (by simp [hsp, h1])

/-- `jsTrim` removes only whitespace, and only from the two ends. -/
lemma jsTrim_decomp (s : List Char) :
    ∃ pre post, s = pre ++ jsTrim s ++ post ∧
      (∀ c ∈ pre, jsWhitespace c) ∧ (∀ c ∈ post, jsWhitespace c) := by
  refine ⟨s.takeWhile jsWhitespace,
    ((s.dropWhile jsWhitespace).reverse.takeWhile jsWhitespace).reverse,
    ?_, fun c hc => List.mem_takeWhile_imp hc,
    fun c hc => List.mem_takeWhile_imp (List.mem_reverse.mp hc)⟩
  unfold jsTrim
  conv_lhs => rw [← List.takeWhile_append_dropWhile (p := jsWhitespace) (l := s)]
  rw [List.append_assoc]
  congr 1
  rw [← List.reverse_append]
  conv_lhs =>
    rw [← List.reverse_reverse (List.dropWhile jsWhitespace s),
      ← List.takeWhile_append_dropWhile (p := jsWhitespace)
        (l := (List.dropWhile jsWhitespace s).reverse)]

/-- `drawCell` on a present (non-`undefined`) cell returns normally
with a draw command that is a sprite draw or a fallback rectangle. -/
lemma drawCell_some_ok (cache : SpriteCache) (decodeOk : String → Bool)
    (ch : Char) (r c : Nat) :
    ∃ cache' cmd, drawCell cache decodeOk (some ch) r c = .ok (cache', cmd) ∧
      cmd ≠ DrawCmd.noData := by
  obtain ⟨cache', res, hrun⟩ :=
    loadSpriteRun_some_ok cache decodeOk (String.singleton ch)
  unfold drawCell
  rw [show (some ch).map (fun x => String.singleton x) =
        some (String.singleton ch) from rfl, hrun]
  cases res with
  | some src => exact ⟨cache', .drawImage r c src, rfl, by simp⟩
  | none => exact ⟨cache', .fillRect r c, rfl, by simp⟩

/-- The inner rendering loop returns normally, one command per column
index, when every requested column lies inside the row. -/
lemma drawRowCells_ok (decodeOk : String → Bool) (row : List Char)
    (r : Nat) :
    ∀ (cols : List Nat) (cache : SpriteCache),
      (∀ c ∈ cols, c < row.length) →
      ∃ cache' cmds, drawRowCells cache decodeOk row r cols =
          .ok (cache', cmds) ∧
        cmds.length = cols.length ∧ ∀ cmd ∈ cmds, cmd ≠ DrawCmd.noData := by
  intro cols
  induction cols with
  | nil => exact fun cache _ => ⟨cache, [], rfl, rfl, by simp⟩
  | cons c cs ih =>
    intro cache hc
    have hclt : c < row.length := hc c (by simp)
    obtain ⟨ch, hch⟩ : ∃ ch, row.get? c = some ch :=
      ⟨row.get ⟨c, hclt⟩, List.get?_eq_get hclt⟩
    obtain ⟨cache₁, cmd, hcell, hnd⟩ := drawCell_some_ok cache decodeOk ch r c
    obtain ⟨cache₂, cmds, hrec, hlen, hmem⟩ :=
      ih cache₁ (fun x hx => hc x (by simp [hx]))
    refine ⟨cache₂, cmd :: cmds, ?_, by simp [hlen], ?_⟩
    · unfold drawRowCells
      rw [hch, hcell]
      show drawRowCells cache₁ decodeOk row r cs >>=
          (fun d => Except.ok (d.1, cmd :: d.2)) = Except.ok (cache₂, cmd :: cmds)
      rw [hrec]
      rfl
    · intro x hx
      rcases List.mem_cons.mp hx with h | h
      · rw [h]; exact hnd
      · exact hmem x h

/-- The outer rendering loop returns normally with `numCols` commands
per row when every row covers `numCols` columns. -/
lemma drawRows_ok (decodeOk : String → Bool) (numCols : Nat) :
    ∀ (rows : List (List Char)) (r : Nat) (cache : SpriteCache),
      (∀ row ∈ rows, numCols ≤ row.length) →
      ∃ cache' cmds, drawRows cache decodeOk numCols r rows =
          .ok (cache', cmds) ∧
        cmds.length = rows.length * numCols ∧
        ∀ cmd ∈ cmds, cmd ≠ DrawCmd.noData := by
  intro rows
  induction rows with
  | nil => exact fun r cache _ => ⟨cache, [], rfl, by simp, by simp⟩
  | cons row rest ih =>
    intro r cache hrows
    have h1 : ∀ c ∈ List.range numCols, c < row.length := by
      intro c hcr
      have h2 := List.mem_range.mp hcr
      have h3 := hrows row (by simp)
      omega
    obtain ⟨cache₁, cmds₁, hrow, hlen₁, hmem₁⟩ :=
      drawRowCells_ok decodeOk row r (List.range numCols) cache h1
    obtain ⟨cache₂, cmds₂, hrest, hlen₂, hmem₂⟩ :=
      ih (r + 1) cache₁ (fun rr hrr => hrows rr (by simp [hrr]))
    refine ⟨cache₂, cmds₁ ++ cmds₂, ?_, ?_, ?_⟩
    · unfold drawRows
      rw [hrow]
      show drawRows cache₁ decodeOk numCols (r + 1) rest >>=
          (fun d => Except.ok (d.1, cmds₁ ++ d.2)) = Except.ok (cache₂, cmds₁ ++ cmds₂)
      rw [hrest]
      rfl
    · rw [List.length_append, hlen₁, hlen₂, List.length_range,
        List.length_cons, Nat.succ_mul, Nat.add_comm]
    · intro x hx
      rcases List.mem_append.mp hx with h | h
      · exact hmem₁ x h
      · exact hmem₂ x h

/-- `toggleSolutionPlayback` with an installed interval cancels it. -/
lemma toggle_off (s : GVState) (h : Nat)
    (hsi : s.solutionPlayerInterval = some h) :
    toggleSolutionPlayback s =
      ({ s with activeTimers := s.activeTimers.erase h,
                solutionPlayerInterval := none }, false) := by
  unfold toggleSolutionPlayback
  rw [hsi]

/-- `toggleSolutionPlayback` with nothing to play is a no-op returning
`false`. -/
lemma toggle_noop (s : GVState)
    (hsi : s.solutionPlayerInterval = none) (hmax : maxStep s < 0) :
    toggleSolutionPlayback s = (s, false) := by
  unfold toggleSolutionPlayback
  rw [hsi, if_pos hmax]

/-- `toggleSolutionPlayback` starting playback from at or past the end:
the step index is reset to `-1` and a fresh interval is installed. -/
lemma toggle_on_at_end (s : GVState)
    (hsi : s.solutionPlayerInterval = none) (hmax : 0 ≤ maxStep s)
    (hc : maxStep s ≤ s.currentStepIndex) :
    toggleSolutionPlayback s =
      ({ s with currentStepIndex := -1,
                activeTimers := s.nextTimerId :: s.activeTimers,
                solutionPlayerInterval := some s.nextTimerId,
                nextTimerId := s.nextTimerId + 1 }, true) := by
  unfold toggleSolutionPlayback
  rw [hsi, if_neg (by omega), if_pos hc]

/-- `toggleSolutionPlayback` starting playback mid-session: the step
index is kept and a fresh interval is installed. -/
lemma toggle_on_mid (s : GVState)
    (hsi : s.solutionPlayerInterval = none) (hmax : 0 ≤ maxStep s)
    (hc : ¬ maxStep s ≤ s.currentStepIndex) :
    toggleSolutionPlayback s =
      ({ s with activeTimers := s.nextTimerId :: s.activeTimers,
                solutionPlayerInterval := some s.nextTimerId,
                nextTimerId := s.nextTimerId + 1 }, true) := by
  unfold toggleSolutionPlayback
  rw [hsi, if_neg (by omega), if_neg hc]

/-- `displayPrecomputedStep` on a valid index of a loaded session. -/
lemma displayPrecomputedStep_eq (s : GVState) (i : Int) (st : GameSnap)
    (h0 : 0 ≤ i) (hlt : i < (s.precomputedStates.length : Int))
    (hget : s.precomputedStates.get? i.toNat = some st) :
    displayPrecomputedStep s i =
      ({ s with currentStepIndex := i },
       [.render (parseAsciiMap st.ascii_map),
        .onStepUpdate i ((s.precomputedStates.length : Int) - 1)]) := by
  unfold displayPrecomputedStep
  rw [if_neg (by omega), if_neg (by omega), hget]

/-- `displayPrecomputedStep` on a missing session or an out-of-range
index is a no-op with no events. -/
lemma displayPrecomputedStep_noop (s : GVState) (i : Int)
    (h : s.precomputedStates = [] ∨ i < 0 ∨
      (s.precomputedStates.length : Int) ≤ i) :
    displayPrecomputedStep s i = (s, []) := by
  unfold displayPrecomputedStep
  rcases h with h | h
  · rw [if_pos (by simp [h])]
  · by_cases hlen : s.precomputedStates.length = 0
    · rw [if_pos hlen]
    · rw [if_neg hlen, if_pos h]

/-! ## Claims -/

/-- C1, counterexample: two `loadSprite` calls for the mapped, not yet
loaded symbol `"b"`, both issued before the first load resolves, start
two underlying loads — not the single shared in-flight load the claim
requires. -/
theorem loadSprite_concurrent_counterexample :
    concurrentLoadStarts [] "b" = 2 ∧ concurrentLoadStarts [] "b" ≠ 1 := by
  decide

/-- C1, amended: `loadSprite` performs no request coalescing.  For a
mapped symbol that is not yet cached, each of two calls issued before
the first load resolves starts its own underlying load (two loads in
total); only a call issued after a load has completed successfully
shares the cached resource and starts no new load. -/
theorem loadSprite_no_coalescing (cache : SpriteCache) (name : String)
    (hmiss : cache.lookup name = none)
    (hmap : (MAP_SPRITES.lookup name).isSome) :
    concurrentLoadStarts cache name = 2 ∧
    ∀ src, loadSpriteStart ((loadSpriteResume cache name src true).1)
      (some name) = .cachedHit src := by
  constructor
  · unfold concurrentLoadStarts loadSpriteStart
    rw [Option.isSome_iff_exists] at hmap
    obtain ⟨file, hfile⟩ := hmap
    simp [hmiss, hfile, startsLoad]
  · intro src
    unfold loadSpriteResume loadSpriteStart
    simp [List.lookup]

/-- C1, witness for the amended theorem at the symbol `"b"` on an empty
cache. -/
theorem loadSprite_no_coalescing_witness :
    concurrentLoadStarts [] "b" = 2 ∧
    ∀ src, loadSpriteStart ((loadSpriteResume [] "b" src true).1)
      (some "b") = .cachedHit src :=
  loadSprite_no_coalescing [] "b" rfl (by decide)

/-- C2, counterexample: after the asynchronous load of symbol `"b"`
fails, nothing is recorded in the cache, and the next `loadSprite` call
for `"b"` starts a brand-new underlying load instead of returning null
without re-attempting. -/
theorem loadSprite_failure_retry_counterexample :
    loadSpriteResume [] "b" "/static/img/baba_obj.png" false = ([], none) ∧
    loadSpriteStart [] (some "b") =
      .startLoad "/static/img/baba_obj.png" := by
  decide

/-- C2, amended: on a failed load `loadSprite` returns null for that
call, but the failure is not recorded anywhere: the cache is unchanged,
so a subsequent call for the same loadable (mapped or `.png`-named)
symbol starts a fresh load attempt rather than returning null without
re-attempting. -/
theorem loadSprite_failure_not_cached (cache : SpriteCache) (name src : String)
    (hmiss : cache.lookup name = none)
    (hload : (MAP_SPRITES.lookup name).isSome ∨ name.endsWith ".png") :
    loadSpriteResume cache name src false = (cache, none) ∧
    ∃ s, loadSpriteStart cache (some name) = .startLoad s := by
  refine ⟨rfl, ?_⟩
  unfold loadSpriteStart
  simp only [hmiss]
  split
  next hcond =>
    obtain ⟨ha, hb⟩ := hcond
    rcases hload with h | h
    · rw [Option.isNone_iff_eq_none] at ha
      rw [ha] at h
      exact absurd h (by simp)
    · exact absurd h hb
  next => exact ⟨_, rfl⟩

/-- C2, witness for the amended theorem at the symbol `"b"` on an empty
cache. -/
theorem loadSprite_failure_not_cached_witness :
    loadSpriteResume [] "b" "/static/img/baba_obj.png" false = ([], none) ∧
    ∃ s, loadSpriteStart [] (some "b") = .startLoad s :=
  loadSprite_failure_not_cached [] "b" "/static/img/baba_obj.png" rfl
    (Or.inl (by decide))

/-- C9: `parseAsciiMap` is a pure total function — calling it twice on
the same text yields structurally identical grids; the empty text
decodes to the empty grid; for any other text the rows, rejoined with
`'\n'`, give back exactly the trimmed input (so every ragged row is
kept at its literal length, nothing is coerced and nothing raises), no
row contains a newline, and trimming only removed whitespace from the
two ends. -/
theorem parseAsciiMap_pure_total (t : String) :
    parseAsciiMap t = parseAsciiMap t ∧
    (t = "" → parseAsciiMap t = []) ∧
    (t ≠ "" →
      joinLines (parseAsciiMap t) = jsTrim t.toList ∧
      (∀ row ∈ parseAsciiMap t, '\n' ∉ row) ∧
      ∃ pre post, t.toList = pre ++ jsTrim t.toList ++ post ∧
        (∀ c ∈ pre, jsWhitespace c) ∧ (∀ c ∈ post, jsWhitespace c)) := by
  refine ⟨rfl, fun h => by simp [parseAsciiMap, h], fun h => ?_⟩
  have hp : parseAsciiMap t = splitOnNewline (jsTrim t.toList) := by
    simp [parseAsciiMap, h]
  refine ⟨by rw [hp]; exact joinLines_splitOnNewline _,
          by rw [hp]; exact fun row hr => newline_not_mem_splitOnNewline _ row hr,
          jsTrim_decomp t.toList⟩

/-- C9, witness: the ragged two-line text `" ab\nc "` decodes to rows
`['a','b']` and `['c']` of literal lengths 2 and 1, rejoining to the
trimmed input. -/
theorem parseAsciiMap_pure_total_witness :
    parseAsciiMap " ab\nc " = [['a', 'b'], ['c']] ∧
    joinLines (parseAsciiMap " ab\nc ") = jsTrim " ab\nc ".toList := by
  have h := (parseAsciiMap_pure_total " ab\nc ").2.2 (by decide)
  exact ⟨by decide, h.1⟩

/-- C7: `displayPrecomputedStep` rejects every step index outside
`[0, N]` of the current session — including every index when no session
is loaded — as a no-op rather than a clamp: the state (in particular
`currentStepIndex`) is unchanged and no render and no step-update
notification happens. -/
theorem displayStep_rejects_out_of_range (s : GVState) (i : Int)
    (h : s.precomputedStates = [] ∨ i < 0 ∨
      (s.precomputedStates.length : Int) - 1 < i) :
    displayPrecomputedStep s i = (s, []) := by
  apply displayPrecomputedStep_noop
  rcases h with h | h | h
  · exact Or.inl h
  · exact Or.inr (Or.inl h)
  · exact Or.inr (Or.inr (by omega))

/-- C7, witness: index `5` with no session loaded, and index `2` just
past the end of a one-move session, are both rejected unchanged. -/
theorem displayStep_rejects_out_of_range_witness :
    displayPrecomputedStep ⟨[], -1, none, [], 0, []⟩ 5 =
      (⟨[], -1, none, [], 0, []⟩, []) ∧
    displayPrecomputedStep sampleSession 2 = (sampleSession, []) :=
  ⟨displayStep_rejects_out_of_range _ 5 (Or.inl rfl),
   displayStep_rejects_out_of_range sampleSession 2
     (Or.inr (Or.inr (by decide)))⟩

/-- C8: for a valid index `i ∈ [0, N]` of a loaded session,
`displayPrecomputedStep` decodes the snapshot's map text, renders it,
sets `currentStepIndex = i` and invokes the step-update notification
with `(i, N)` where `N = precomputedStates.length - 1`; in particular
the new `currentStepIndex` lies in `[0, N]`. -/
theorem displayStep_valid (s : GVState) (i : Int) (st : GameSnap)
    (h0 : 0 ≤ i) (hle : i ≤ (s.precomputedStates.length : Int) - 1)
    (hget : s.precomputedStates.get? i.toNat = some st) :
    displayPrecomputedStep s i =
      ({ s with currentStepIndex := i },
       [.render (parseAsciiMap st.ascii_map),
        .onStepUpdate i ((s.precomputedStates.length : Int) - 1)]) ∧
    0 ≤ (displayPrecomputedStep s i).1.currentStepIndex ∧
    (displayPrecomputedStep s i).1.currentStepIndex ≤
      (s.precomputedStates.length : Int) - 1 := by
  have heq := displayPrecomputedStep_eq s i st h0 (by omega) hget
  rw [heq]
  refine ⟨rfl, ?_, ?_⟩ <;> simp <;> omega

/-- C8, witness: displaying step `1` of the one-move sample session. -/
theorem displayStep_valid_witness :
    displayPrecomputedStep sampleSession 1 =
      ({ sampleSession with currentStepIndex := 1 },
       [.render (parseAsciiMap "b_"), .onStepUpdate 1 1]) := by
  have h := displayStep_valid sampleSession 1 ⟨some "r", "b_"⟩
    (by decide) (by decide) (by decide)
  simpa using h.1

/-- C5: when the current session is at its last step
(`currentStepIndex = N`) and playback is toggled on, `currentStepIndex`
is reset to `-1` and the first timer tick displays index `0` — not
`N + 1` and not a no-op. -/
theorem toggle_restarts_from_end (s : GVState) (st : GameSnap)
    (hpaused : s.solutionPlayerInterval = none)
    (hhead : s.precomputedStates.get? 0 = some st)
    (hend : s.currentStepIndex = (s.precomputedStates.length : Int) - 1) :
    (toggleSolutionPlayback s).2 = true ∧
    (toggleSolutionPlayback s).1.currentStepIndex = -1 ∧
    (playbackTick (toggleSolutionPlayback s).1
        ((s.precomputedStates.length : Int) - 1)).1.currentStepIndex = 0 ∧
    (playbackTick (toggleSolutionPlayback s).1
        ((s.precomputedStates.length : Int) - 1)).2 =
      [.render (parseAsciiMap st.ascii_map),
       .onStepUpdate 0 ((s.precomputedStates.length : Int) - 1)] := by
  have hlen : 0 < s.precomputedStates.length := by
    cases hl : s.precomputedStates with
    | nil => rw [hl] at hhead; simp at hhead
    | cons a l => simp
  have hmax : maxStep s = (s.precomputedStates.length : Int) - 1 := by
    unfold maxStep
    rw [if_pos hlen]
  have htog : toggleSolutionPlayback s =
      ({ s with currentStepIndex := -1,
                activeTimers := s.nextTimerId :: s.activeTimers,
                solutionPlayerInterval := some s.nextTimerId,
                nextTimerId := s.nextTimerId + 1 }, true) := by
    unfold toggleSolutionPlayback
    rw [hpaused]
    rw [if_neg (by omega), if_pos (by omega)]
  rw [htog]
  refine ⟨rfl, rfl, ?_⟩
  unfold playbackTick
  rw [if_pos (by simp; omega)]
  have hdisp := displayPrecomputedStep_eq
    { s with currentStepIndex := -1,
             activeTimers := s.nextTimerId :: s.activeTimers,
             solutionPlayerInterval := some s.nextTimerId,
             nextTimerId := s.nextTimerId + 1 }
    0 st (by omega) (by simp; omega) (by simpa using hhead)
  simp only [show (-1 : Int) + 1 = 0 from rfl]
  rw [hdisp]
  simp

/-- C5, witness: the sample session moved to its final step `1`. -/
theorem toggle_restarts_from_end_witness :
    (toggleSolutionPlayback { sampleSession with currentStepIndex := 1 }).2
      = true ∧
    (toggleSolutionPlayback
      { sampleSession with currentStepIndex := 1 }).1.currentStepIndex = -1 := by
  have h := toggle_restarts_from_end { sampleSession with currentStepIndex := 1 }
    ⟨none, "_b"⟩ rfl (by decide) (by decide)
  exact ⟨h.1, h.2.1⟩

/-- C6: two consecutive `toggleSolutionPlayback` calls with no
intervening timer tick return the controller to its original
playing/paused state with no leaked timer.  The hypotheses are the
reachability invariants of the module: an installed interval implies
something to play, and the only live browser timer is the one held in
`solutionPlayerInterval`.  When starting paused (with something to
play) the first call starts a timer and returns `true` and the second
cancels that same timer and returns `false`, leaving no active timer;
when starting playing, symmetrically `false` then `true`. -/
theorem toggle_toggle_is_identity (s : GVState)
    (hinv : s.solutionPlayerInterval.isSome = true → 0 ≤ maxStep s)
    (htimers : s.activeTimers = s.solutionPlayerInterval.toList) :
    ((toggleSolutionPlayback
        (toggleSolutionPlayback s).1).1.solutionPlayerInterval.isSome
      = s.solutionPlayerInterval.isSome) ∧
    ((toggleSolutionPlayback (toggleSolutionPlayback s).1).1.activeTimers
      = (toggleSolutionPlayback
          (toggleSolutionPlayback s).1).1.solutionPlayerInterval.toList) ∧
    (s.solutionPlayerInterval = none → 0 ≤ maxStep s →
      (toggleSolutionPlayback s).2 = true ∧
      (toggleSolutionPlayback (toggleSolutionPlayback s).1).2 = false ∧
      (toggleSolutionPlayback (toggleSolutionPlayback s).1).1.activeTimers
        = []) ∧
    (s.solutionPlayerInterval.isSome = true →
      (toggleSolutionPlayback s).2 = false ∧
      (toggleSolutionPlayback (toggleSolutionPlayback s).1).2 = true) := by
  cases hsi : s.solutionPlayerInterval with
  | some h =>
    have hmax : 0 ≤ maxStep s := hinv (by rw [hsi]; rfl)
    have hats : s.activeTimers = [h] := by rw [htimers, hsi]; rfl
    have ht1 := toggle_off s h hsi
    have h1 : (toggleSolutionPlayback s).1 =
        ({ s with activeTimers := s.activeTimers.erase h,
                  solutionPlayerInterval := none } : GVState) := by rw [ht1]
    have r1 : (toggleSolutionPlayback s).2 = false := by rw [ht1]
    by_cases hc : maxStep s ≤ s.currentStepIndex
    · have ht2 := toggle_on_at_end
        ({ s with activeTimers := s.activeTimers.erase h,
                  solutionPlayerInterval := none } : GVState) rfl hmax hc
      rw [h1, ht2]
      refine ⟨by simp, by simp [Option.toList, hats], fun hn => by simp at hn,
        fun _ => ⟨r1, rfl⟩⟩
    · have ht2 := toggle_on_mid
        ({ s with activeTimers := s.activeTimers.erase h,
                  solutionPlayerInterval := none } : GVState) rfl hmax hc
      rw [h1, ht2]
      refine ⟨by simp, by simp [Option.toList, hats], fun hn => by simp at hn,
        fun _ => ⟨r1, rfl⟩⟩
  | none =>
    have hats : s.activeTimers = [] := by rw [htimers, hsi]; rfl
    by_cases hmax : maxStep s < 0
    · have ht1 := toggle_noop s hsi hmax
      have h1 : (toggleSolutionPlayback s).1 = s := by rw [ht1]
      rw [h1, ht1]
      refine ⟨by simp [hsi], by simpa using htimers,
        fun _ hge => absurd hge (by omega), fun hh => by simp at hh⟩
    · push_neg at hmax
      by_cases hc : maxStep s ≤ s.currentStepIndex
      · have ht1 := toggle_on_at_end s hsi hmax hc
        have h1 : (toggleSolutionPlayback s).1 =
            ({ s with currentStepIndex := -1,
                      activeTimers := s.nextTimerId :: s.activeTimers,
                      solutionPlayerInterval := some s.nextTimerId,
                      nextTimerId := s.nextTimerId + 1 } : GVState) := by rw [ht1]
        have r1 : (toggleSolutionPlayback s).2 = true := by rw [ht1]
        have ht2 := toggle_off
          ({ s with currentStepIndex := -1,
                    activeTimers := s.nextTimerId :: s.activeTimers,
                    solutionPlayerInterval := some s.nextTimerId,
                    nextTimerId := s.nextTimerId + 1 } : GVState) s.nextTimerId rfl
        rw [h1, ht2]
        refine ⟨by simp, ?_, fun _ _ => ⟨r1, rfl, ?_⟩, fun hh => by simp at hh⟩
        · simp [Option.toList, hats]
        · simp [hats]
      · have ht1 := toggle_on_mid s hsi hmax hc
        have h1 : (toggleSolutionPlayback s).1 =
            ({ s with activeTimers := s.nextTimerId :: s.activeTimers,
                      solutionPlayerInterval := some s.nextTimerId,
                      nextTimerId := s.nextTimerId + 1 } : GVState) := by rw [ht1]
        have r1 : (toggleSolutionPlayback s).2 = true := by rw [ht1]
        have ht2 := toggle_off
          ({ s with activeTimers := s.nextTimerId :: s.activeTimers,
                    solutionPlayerInterval := some s.nextTimerId,
                    nextTimerId := s.nextTimerId + 1 } : GVState) s.nextTimerId rfl
        rw [h1, ht2]
        refine ⟨by simp, ?_, fun _ _ => ⟨r1, rfl, ?_⟩, fun hh => by simp at hh⟩
        · simp [Option.toList, hats]
        · simp [hats]

/-- C6, witness: the paused sample session toggled twice. -/
theorem toggle_toggle_is_identity_witness :
    (toggleSolutionPlayback sampleSession).2 = true ∧
    (toggleSolutionPlayback (toggleSolutionPlayback sampleSession).1).2
      = false ∧
    (toggleSolutionPlayback
      (toggleSolutionPlayback sampleSession).1).1.activeTimers = [] := by
  have h := toggle_toggle_is_identity sampleSession (by intro hh; cases hh)
    (by rfl)
  exact h.2.2.1 rfl (by decide)

/-- C3, counterexample: a successful state-generation response with
exactly one snapshot state (`N = 0`) renders index 0 but fires no
notification at all — in particular the claimed "no solution"
notification is not invoked. -/
theorem showGameView_one_state_counterexample :
    (showGameViewSuccess ⟨[], -1, none, [], 0, []⟩ [] "_" [⟨none, "_"⟩]).2 =
      [.render [['_']], .onStepUpdate 0 0] ∧
    Event.onNoSolution ∉
      (showGameViewSuccess ⟨[], -1, none, [], 0, []⟩ [] "_" [⟨none, "_"⟩]).2 := by
  decide

/-- C3, amended: for every successful state-generation response with
`N + 1 ≥ 1` snapshot states, `showGameView` renders index 0 and invokes
the step-update notification with `(0, N)`; it notifies "solution
ready" with `N` exactly when `N > 0`; when `N = 0` no further
notification is fired — the "no solution" notification is never invoked
on a successful response with at least one state. -/
theorem showGameView_success_notifications (s : GVState) (sol : List Char)
    (asciiMap : String) (states : List GameSnap) (st : GameSnap)
    (hhead : states.get? 0 = some st) :
    showGameViewSuccess s sol asciiMap states =
      ({ cancelTimer s with currentSolution := sol, currentStepIndex := 0,
                            precomputedStates := states },
       if 1 < states.length then
         [.render (parseAsciiMap st.ascii_map),
          .onStepUpdate 0 ((states.length : Int) - 1),
          .onSolutionReady ((states.length : Int) - 1)]
       else
         [.render (parseAsciiMap st.ascii_map),
          .onStepUpdate 0 ((states.length : Int) - 1)]) ∧
    Event.onNoSolution ∉ (showGameViewSuccess s sol asciiMap states).2 := by
  obtain ⟨hlt, -⟩ := List.get?_eq_some.mp hhead
  have hmain : showGameViewSuccess s sol asciiMap states =
      ({ cancelTimer s with currentSolution := sol, currentStepIndex := 0,
                            precomputedStates := states },
       if 1 < states.length then
         [.render (parseAsciiMap st.ascii_map),
          .onStepUpdate 0 ((states.length : Int) - 1),
          .onSolutionReady ((states.length : Int) - 1)]
       else
         [.render (parseAsciiMap st.ascii_map),
          .onStepUpdate 0 ((states.length : Int) - 1)]) := by
    unfold showGameViewSuccess
    generalize cancelTimer s = C
    obtain ⟨cs, ci, si, ats, nt, ps⟩ := C
    dsimp only
    rw [if_pos hlt]
    have hdisp := displayPrecomputedStep_eq
      (⟨sol, 0, si, ats, nt, states⟩ : GVState) 0 st
      (by omega) (by simp; omega) (by simpa using hhead)
    rw [hdisp]
    by_cases h1 : 1 < states.length
    · rw [if_pos h1, if_pos h1]
      rfl
    · rw [if_neg h1, if_neg h1]
  refine ⟨hmain, ?_⟩
  rw [hmain]
  by_cases h1 : 1 < states.length
  · rw [if_pos h1]
    simp
  · rw [if_neg h1]
    simp

/-- C3, witness for the amended theorem: a two-snapshot (one-move)
response on the sample controller state. -/
theorem showGameView_success_notifications_witness :
    (showGameViewSuccess sampleSession ['r'] "_b"
      [⟨none, "_b"⟩, ⟨some "r", "b_"⟩]).2 =
      [.render (parseAsciiMap "_b"), .onStepUpdate 0 1,
       .onSolutionReady 1] := by
  have h := showGameView_success_notifications sampleSession ['r'] "_b"
    [⟨none, "_b"⟩, ⟨some "r", "b_"⟩] ⟨none, "_b"⟩ rfl
  rw [h.1]
  rfl

/-- C4, counterexample: `drawMap` throws on a ragged grid whose second
row is shorter than the first: the cell access yields `undefined`,
which `loadSprite` dereferences with `.endsWith`, raising a
`TypeError` — rendering is not total and does not fall back. -/
theorem drawMap_ragged_counterexample :
    drawMap [] (fun _ => true) [['b'], []] = .error () := rfl

/-- C4, amended: for every grid whose rows are all at least as long as
the first row, `drawMap` handles every cell in the
`numRows × numCols` rectangle (with `numCols` the first row's length)
totally — each cell produces either a sprite draw or a fallback filled
rectangle, never the "no data" message and never a throw; but a row
shorter than the first row makes `drawMap` throw a `TypeError`, and
cells of rows longer than the first row beyond `numCols` are skipped. -/
theorem drawMap_total_on_covering_rows (cache : SpriteCache)
    (decodeOk : String → Bool) (mapArray : List (List Char))
    (hrect : ∀ row ∈ mapArray, (mapArray.headD []).length ≤ row.length) :
    mapArray ≠ [] →
    ∃ cache' cmds, drawMap cache decodeOk mapArray = .ok (cache', cmds) ∧
      cmds.length = mapArray.length * (mapArray.headD []).length ∧
      ∀ cmd ∈ cmds, cmd ≠ DrawCmd.noData := by
  intro hne
  obtain ⟨cache', cmds, h, hlen, hmem⟩ := drawRows_ok decodeOk
    (mapArray.headD []).length mapArray 0 cache hrect
  refine ⟨cache', cmds, ?_, hlen, hmem⟩
  unfold drawMap
  rw [if_neg (by simpa using hne)]
  exact h

/-- C4, witness for the amended theorem: a rectangular one-row grid
with a mapped and an unmapped character draws both cells. -/
theorem drawMap_total_on_covering_rows_witness :
    ∃ cache' cmds, drawMap [] (fun _ => true) [['b', '?']] =
        .ok (cache', cmds) ∧
      cmds.length = [['b', '?']].length * ([['b', '?']].headD []).length ∧
      ∀ cmd ∈ cmds, cmd ≠ DrawCmd.noData :=
  drawMap_total_on_covering_rows [] (fun _ => true) [['b', '?']]
    (by decide) (by decide)

/-- C10: on a progress-stream error — an `error`-status event or a
transport-level connection failure — the handler closes the stream
(emitting exactly the close action and in particular no
`openStream`, so there is no retry or reconnection), surfaces a
user-visible error message (status line, and an alert for the
application-level case), and leaves the last-known results table and
metrics state unchanged. -/
theorem progress_error_one_shot (ui : UIState) (d : ProgressData)
    (herr : d.status = "error") :
    ((onProgressMessage ui d).1.streamOpen = false ∧
     (onProgressMessage ui d).2 = [.closeStream] ∧
     (onProgressMessage ui d).1.statusMessage = "Errore: " ++ d.error ∧
     ("Si è verificato un errore: " ++ d.error) ∈
       (onProgressMessage ui d).1.alerts ∧
     (onProgressMessage ui d).1.levelsTable = ui.levelsTable ∧
     (onProgressMessage ui d).1.metricsSource = ui.metricsSource ∧
     ∀ sid, StreamAction.openStream sid ∉ (onProgressMessage ui d).2) ∧
    ((onProgressError ui).1.streamOpen = false ∧
     (onProgressError ui).2 = [.closeStream] ∧
     (onProgressError ui).1.statusMessage =
       "Errore nella connessione col server. Riprova." ∧
     (onProgressError ui).1.levelsTable = ui.levelsTable ∧
     (onProgressError ui).1.metricsSource = ui.metricsSource ∧
     ∀ sid, StreamAction.openStream sid ∉ (onProgressError ui).2) := by
  have hmsg : onProgressMessage ui d =
      ({ setStatus { ui with streamOpen := false }
          ("Errore: " ++ d.error) false with
         alerts := (setStatus { ui with streamOpen := false }
          ("Errore: " ++ d.error) false).alerts ++
            ["Si è verificato un errore: " ++ d.error] },
       [.closeStream]) := by
    unfold onProgressMessage
    rw [herr, if_neg (by decide), if_pos rfl]
  rw [hmsg]
  unfold onProgressError setStatus
  refine ⟨⟨rfl, rfl, rfl, by simp, rfl, rfl, by simp⟩,
    rfl, rfl, rfl, rfl, rfl, by simp⟩

/-- C10, witness: a concrete `error`-status event on the sample UI
state. -/
theorem progress_error_one_shot_witness :
    (onProgressMessage sampleUI ⟨"error", "boom", 1, 5, none⟩).1.streamOpen
      = false ∧
    (onProgressMessage sampleUI
      ⟨"error", "boom", 1, 5, none⟩).1.levelsTable = sampleUI.levelsTable :=
  ⟨(progress_error_one_shot sampleUI ⟨"error", "boom", 1, 5, none⟩ rfl).1.1,
   (progress_error_one_shot sampleUI
     ⟨"error", "boom", 1, 5, none⟩ rfl).1.2.2.2.2.1⟩

end Keke
